import Mathlib

set_option maxRecDepth 8000

/-!
Verification development for the dust-dds reliable stateful writer.

The sources embedded here are:
- src/dds/src/rtps/stateful_writer.rs  (the RTPS stateful writer engine), and
- src/dds/src/dcps/infrastructure/qos_policy.rs  (the Length QoS ordering).

The writer engine depends on a reader-proxy / heartbeat-machine / submessage
layer (rtps/reader_proxy.rs, rtps_messages, transport types) that is not part
of the two source files; those parts are modelled from the specification
(spec.md sections 3, 4.2, 4.3, 4.4.6) and each such definition carries a doc
comment starting with "Modelled from the spec:".  Everything taken from
stateful_writer.rs or qos_policy.rs is a direct translation of the Rust code.

Rust integer types are rendered as Nat / Int: SequenceNumber (i64) as Int,
byte payloads as List Nat, and the explicit numeric casts of the fragmentation
path (as u16 / as u32) as explicit reductions modulo 2^16 / 2^32.  Rust
functions that can panic (the todo branches on ChangeKind) return Option,
with none marking the panic.  Each source while-loop is rendered as structural
recursion on an explicit iteration budget that equals the exact number of
iterations the source loop performs (the budget is computed from the same
quantity that makes the source loop terminate, so no behaviour is cut short).
-/

/-- RTPS sequence numbers are i64 counters; claims never exercise i64 overflow. -/
abbrev SequenceNumber := Int

/-- Entity ids are opaque 4-byte values; modelled as Nat. -/
abbrev EntityId := Nat

/-- Guid prefixes are opaque 12-byte values; modelled as Nat. -/
abbrev GuidPfx := Nat

/-- Modelled from the spec: section 3, a GUID is a 12-byte participant
part plus a 4-byte entity id. -/
structure Guid where
  pfx : GuidPfx
  entityId : EntityId
deriving DecidableEq, Repr

/-- Modelled from the spec: the ENTITYID_UNKNOWN sentinel used as the
reader id of writer-side GAP submessages. -/
def ENTITYID_UNKNOWN : EntityId := 0

/-- Modelled from the spec: section 6, the TIME_INVALID sentinel that
signals an absent source timestamp. -/
def TIME_INVALID : Int := 0xFFFFFFFFFFFFFFFF

/-- Modelled from the spec: section 3 lists the kinds Alive,
NotAliveDisposed and NotAliveUnregistered; the catch-all arms in the
fragmentation match of stateful_writer.rs (the open question of section 9)
imply that the transport ChangeKind enum, which is not under src/, has
further variants.  The two extra RTPS-standard kinds are included so that
the catch-all is reachable. -/
inductive ChangeKind where
  | Alive
  | AliveFiltered
  | NotAliveDisposed
  | NotAliveUnregistered
  | NotAliveDisposedUnregistered
deriving DecidableEq, Repr

/-- Modelled from the spec: section 3 reliability values. -/
inductive ReliabilityKind where
  | BestEffort
  | Reliable
deriving DecidableEq, Repr

/-- Modelled from the spec: section 3 durability values. -/
inductive DurabilityKind where
  | Volatile
  | TransientLocal
  | Transient
  | Persistent
deriving DecidableEq, Repr

/-- Modelled from the spec: section 3, one immutable data-sample record.
Only the fields the writer engine reads are kept. -/
structure CacheChange where
  kind : ChangeKind
  writerGuid : Guid
  sequenceNumber : SequenceNumber
  sourceTimestamp : Option Int
  dataValue : List Nat
deriving DecidableEq, Repr

/-- Modelled from the spec: section 4.3, the heartbeat machine state is the
last emission time and an incrementing count. -/
structure HeartbeatMachine where
  lastTime : Int
  count : Int
deriving DecidableEq, Repr

/-- Modelled from the spec: section 4.3, true iff now - last_time >= period. -/
def HeartbeatMachine.isTimeForHeartbeat (hm : HeartbeatMachine) (now period : Int) : Bool :=
  decide (period ≤ now - hm.lastTime)

/-- Modelled from the spec: sections 4.4.6 and 4.4.1-4.4.3, the submessages
the writer engine emits, with the fields those sections name. -/
inductive Submessage where
  | infoDst (dst : GuidPfx)
  | infoTs (invalidFlag : Bool) (ts : Int)
  | dataSub (readerId writerId : EntityId) (writerSn : SequenceNumber)
      (serializedPayload : List Nat)
  | dataFrag (inlineQosFlag nonStandardPayloadFlag keyFlag : Bool)
      (readerId writerId : EntityId) (writerSn : SequenceNumber)
      (fragmentStartingNum : Nat) (fragmentsInSubmessage : Nat)
      (fragmentSize : Nat) (dataSize : Nat) (serializedPayload : List Nat)
  | gap (readerId writerId : EntityId) (gapStart : SequenceNumber)
      (gapListBase : SequenceNumber) (gapList : List SequenceNumber)
  | heartbeat (writerId : EntityId) (firstSn lastSn : SequenceNumber)
      (count : Int) (finalFlag : Bool)
deriving DecidableEq, Repr

/-- Recognizer for HEARTBEAT submessages. -/
def Submessage.isHeartbeat : Submessage → Bool
  | .heartbeat _ _ _ _ _ => true
  | _ => false

/-- Modelled from the spec: section 4.3, generate_new_heartbeat increments the
count, records the emission time, and yields the HEARTBEAT submessage. -/
def HeartbeatMachine.generateNewHeartbeat (hm : HeartbeatMachine) (writerId : EntityId)
    (firstSn lastSn : SequenceNumber) (now : Int) (finalFlag : Bool) :
    HeartbeatMachine × Submessage :=
  (⟨now, hm.count + 1⟩, .heartbeat writerId firstSn lastSn (hm.count + 1) finalFlag)

/-- One outbound datagram: the submessages framed together behind one RTPS
header (spec section 4.4.6); the header itself carries no claim-relevant data. -/
abbrev Datagram := List Submessage

/-- Modelled from the spec: sections 4.4.4 and 4.4.6, the fields of an inbound
ACKNACK that the handler reads, plus its writer id. -/
structure AckNackSubmessage where
  finalFlag : Bool
  readerId : EntityId
  writerId : EntityId
  readerSnStateBase : SequenceNumber
  readerSnStateSet : List SequenceNumber
  count : Int
deriving DecidableEq, Repr

/-- Modelled from the spec: sections 4.4.5 and 4.4.6, the fields of an inbound
NACK_FRAG, including the writer id the handler may or may not consult. -/
structure NackFragSubmessage where
  readerId : EntityId
  writerId : EntityId
  writerSn : SequenceNumber
  fragmentNumberStateBase : Nat
  fragmentNumberStateSet : List Nat
  count : Int
deriving DecidableEq, Repr

/-- Modelled from the spec: section 3, the per-matched-reader protocol state
(rtps/reader_proxy.rs is not under src/). -/
structure RtpsReaderProxy where
  remoteReaderGuid : Guid
  remoteGroupEntityId : EntityId
  unicastLocatorList : List Nat
  multicastLocatorList : List Nat
  expectsInlineQos : Bool
  isActive : Bool
  reliability : ReliabilityKind
  durability : DurabilityKind
  firstRelevantSampleSeqNum : SequenceNumber
  highestSentSeqNum : SequenceNumber
  highestAckedSeqNum : SequenceNumber
  requestedChanges : List SequenceNumber
  lastReceivedAcknackCount : Int
  lastReceivedNackFragCount : Int
  hbMachine : HeartbeatMachine
deriving DecidableEq, Repr

/-- The maximum sequence number among the writer's changes, as computed at the
call sites in stateful_writer.rs (changes.iter().map(sequence_number).max()). -/
def maxSeqNum (changes : List CacheChange) : Option SequenceNumber :=
  (changes.map (·.sequenceNumber)).max?

/-- The minimum sequence number among the writer's changes, as computed at the
call sites in stateful_writer.rs. -/
def minSeqNum (changes : List CacheChange) : Option SequenceNumber :=
  (changes.map (·.sequenceNumber)).min?

/-- Modelled from the spec: section 4.2, next_unsent_change returns the
smallest s with s > highest_sent_seq_num and s <= max(changes), including s
for which no change exists, and None when highest_sent_seq_num >= max(changes)
or there are no changes.  That smallest s is highest_sent_seq_num + 1. -/
def RtpsReaderProxy.nextUnsentChange (p : RtpsReaderProxy) (changes : List CacheChange) :
    Option SequenceNumber :=
  match maxSeqNum changes with
  | none => none
  | some mx => if p.highestSentSeqNum < mx then some (p.highestSentSeqNum + 1) else none

/-- Modelled from the spec: section 4.2, true iff next_unsent_change would be Some. -/
def RtpsReaderProxy.unsentChanges (p : RtpsReaderProxy) (changes : List CacheChange) : Bool :=
  (p.nextUnsentChange changes).isSome

/-- Modelled from the spec: section 4.2, true iff highest_acked_seq_num is
below the given maximum; with no changes there is nothing unacknowledged. -/
def RtpsReaderProxy.unackedChanges (p : RtpsReaderProxy) (seqNumMax : Option SequenceNumber) :
    Bool :=
  match seqNumMax with
  | some mx => decide (p.highestAckedSeqNum < mx)
  | none => false

/-- Modelled from the spec: section 4.2, acked_changes_set sets
highest_acked_seq_num to n (the monotonicity remark there is a caller-side
guard via the ACKNACK count, not a clamp: the concrete scenario 3 of section 8
lowers the value from 5 to 3). -/
def RtpsReaderProxy.ackedChangesSet (p : RtpsReaderProxy) (n : SequenceNumber) :
    RtpsReaderProxy :=
  { p with highestAckedSeqNum := n }

/-- Modelled from the spec: section 4.2, requested_changes_set unions the given
sequence numbers into the requested set, filtered to sequence numbers the
reader is allowed to receive; the only receivability criterion the spec gives
is the relevance gate of section 4.4.3 (a sample is sent to the reader exactly
when its sequence number exceeds first_relevant_sample_seq_num), so the filter
keeps sn with first_relevant_sample_seq_num < sn.  Duplicates are not added. -/
def RtpsReaderProxy.requestedChangesSet (p : RtpsReaderProxy)
    (reqSeqNumSet : List SequenceNumber) : RtpsReaderProxy :=
  let upd := reqSeqNumSet.foldl
    (fun acc sn =>
      if p.firstRelevantSampleSeqNum < sn ∧ sn ∉ acc then acc ++ [sn] else acc)
    p.requestedChanges
  { p with requestedChanges := upd }

/-- Modelled from the spec: section 4.2, next_requested_change removes and
returns the smallest requested sequence number. -/
def RtpsReaderProxy.nextRequestedChange (p : RtpsReaderProxy) :
    Option (SequenceNumber × RtpsReaderProxy) :=
  match p.requestedChanges.min? with
  | none => none
  | some m => some (m, { p with requestedChanges := p.requestedChanges.erase m })

/-- Rust usize::div_ceil for a positive divisor (the source computes
data_value.len().div_ceil(data_max_size_serialized)). -/
def divCeil (a b : Nat) : Nat := (a + b - 1) / b

/-- The INFO_TS submessage the source builds from a change's source timestamp:
the timestamp when present, otherwise the invalid flag with TIME_INVALID
(stateful_writer.rs builds this identically at every send site). -/
def infoTsOf (cc : CacheChange) : Submessage :=
  match cc.sourceTimestamp with
  | some t => .infoTs false t
  | none => .infoTs true TIME_INVALID

/-- The key_flag computation of the fragmentation paths of stateful_writer.rs
(lines 329-333 and 577-581): Alive gives false, NotAliveDisposed and
NotAliveUnregistered give true, and every other kind hits the unimplemented
catch-all; none marks that panic. -/
def keyFlag : ChangeKind → Option Bool
  | .Alive => some false
  | .NotAliveDisposed => some true
  | .NotAliveUnregistered => some true
  | _ => none

/-- Modelled from the spec: CacheChange::as_data_submessage lives in the
history-cache module, not under src/; section 4.4.1 says it frames the change
as a single DATA submessage for the given reader and writer entity ids. -/
def CacheChange.asDataSubmessage (cc : CacheChange) (readerId writerId : EntityId) :
    Submessage :=
  .dataSub readerId writerId cc.sequenceNumber cc.dataValue

/-- The fragmentation burst shared verbatim by the best-effort path (lines
318-374) and the reliable path (lines 566-623) of stateful_writer.rs: one
datagram INFO_DST + INFO_TS + DATA_FRAG per fragment index, fragment index i
(0-based) carrying payload bytes [i*D, min((i+1)*D, len)), with the source's
u32/u16 casts made explicit.  The key_flag match panics on unimplemented kinds
(none); with zero iterations the loop body never runs. -/
def fragDatagrams (dstPfx : GuidPfx) (readerId writerId : EntityId) (cc : CacheChange)
    (dataMaxSizeSerialized : Nat) : Option (List Datagram) :=
  let len := cc.dataValue.length
  let numberOfFragments := divCeil len dataMaxSizeSerialized
  if numberOfFragments = 0 then some [] else
    match keyFlag cc.kind with
    | none => none
    | some kf =>
        some ((List.range numberOfFragments).map (fun fragIndex =>
          let start := fragIndex * dataMaxSizeSerialized
          let stop := min ((fragIndex + 1) * dataMaxSizeSerialized) len
          [ Submessage.infoDst dstPfx,
            infoTsOf cc,
            Submessage.dataFrag true false kf readerId writerId cc.sequenceNumber
              ((fragIndex + 1) % 2 ^ 32) 1 (dataMaxSizeSerialized % 2 ^ 16)
              (len % 2 ^ 32) ((cc.dataValue.drop start).take (stop - start)) ]))

/-- The per-change reliable send routine
(write_change_message_reader_proxy_reliable, stateful_writer.rs lines 542-672).
Looks the change up; if it exists and its sequence number exceeds
first_relevant_sample_seq_num it sends either the fragment burst (no
heartbeat) or one INFO_DST + INFO_TS + DATA + HEARTBEAT(final=false) datagram;
otherwise one INFO_DST + GAP([s,s]) datagram.  The function only ever mutates
the proxy through its heartbeat machine, so it returns the new machine. -/
def writeChangeMessageReaderProxyReliable (p : RtpsReaderProxy) (writerId : EntityId)
    (changes : List CacheChange) (seqNumMin seqNumMax : Option SequenceNumber)
    (dataMaxSizeSerialized : Nat) (changeSeqNum : SequenceNumber) (now : Int) :
    Option (HeartbeatMachine × List Datagram) :=
  let gapResult : Option (HeartbeatMachine × List Datagram) :=
    some (p.hbMachine,
      [[ Submessage.infoDst p.remoteReaderGuid.pfx,
         Submessage.gap ENTITYID_UNKNOWN writerId changeSeqNum (changeSeqNum + 1) [] ]])
  match changes.find? (fun cc => decide (cc.sequenceNumber = changeSeqNum)) with
  | some cc =>
    if p.firstRelevantSampleSeqNum < changeSeqNum then
      let numberOfFragments := divCeil cc.dataValue.length dataMaxSizeSerialized
      if 1 < numberOfFragments then
        match fragDatagrams p.remoteReaderGuid.pfx p.remoteReaderGuid.entityId writerId cc
            dataMaxSizeSerialized with
        | none => none
        | some dgs => some (p.hbMachine, dgs)
      else
        let hb := p.hbMachine.generateNewHeartbeat writerId (seqNumMin.getD 1)
          (seqNumMax.getD 0) now false
        some (hb.1,
          [[ Submessage.infoDst p.remoteReaderGuid.pfx,
             infoTsOf cc,
             cc.asDataSubmessage p.remoteReaderGuid.entityId writerId,
             hb.2 ]])
    else gapResult
  | none => gapResult

/-- One iteration budget's worth of the best-effort send loop
(write_message_to_reader_proxy_best_effort, stateful_writer.rs lines 257-414).
Each iteration handles next_unsent_change: a range GAP when it jumped past
highest_sent_seq_num + 1 (unreachable given next_unsent_change, translated for
fidelity), the fragment burst or a single INFO_DST + INFO_TS + DATA datagram
when the change exists, and a GAP([s,s]) datagram when it was removed; then
highest_sent_seq_num := s.  The budget equals the exact number of iterations
the source loop performs (see writeMessageToReaderProxyBestEffort). -/
def writeBestEffortGo (writerId : EntityId) (changes : List CacheChange)
    (dataMaxSizeSerialized : Nat) :
    Nat → RtpsReaderProxy → Option (RtpsReaderProxy × List Datagram)
  | 0, p => some (p, [])
  | fuel + 1, p =>
    match p.nextUnsentChange changes with
    | none => some (p, [])
    | some s =>
      let step : Option (RtpsReaderProxy × List Datagram) :=
        if p.highestSentSeqNum + 1 < s then
          some ({ p with highestSentSeqNum := s },
            [[ Submessage.gap p.remoteReaderGuid.entityId writerId
                 (p.highestSentSeqNum + 1) ((s - 1) + 1) [] ]])
        else
          match changes.find? (fun cc => decide (cc.sequenceNumber = s)) with
          | some cc =>
            let numberOfFragments := divCeil cc.dataValue.length dataMaxSizeSerialized
            if 1 < numberOfFragments then
              match fragDatagrams p.remoteReaderGuid.pfx p.remoteReaderGuid.entityId
                  writerId cc dataMaxSizeSerialized with
              | none => none
              | some dgs => some (p, dgs)
            else
              some (p,
                [[ Submessage.infoDst p.remoteReaderGuid.pfx,
                   infoTsOf cc,
                   cc.asDataSubmessage p.remoteReaderGuid.entityId writerId ]])
          | none =>
            some (p, [[ Submessage.gap ENTITYID_UNKNOWN writerId s (s + 1) [] ]])
      match step with
      | none => none
      | some (p1, dgs) =>
        match writeBestEffortGo writerId changes dataMaxSizeSerialized fuel
            { p1 with highestSentSeqNum := s } with
        | none => none
        | some (p2, rest) => some (p2, dgs ++ rest)

/-- The iteration budget of the unsent-changes loops: next_unsent_change
advances highest_sent_seq_num by exactly one per iteration until it reaches
max(changes), so the source loop runs exactly this many times. -/
def unsentFuel (p : RtpsReaderProxy) (changes : List CacheChange) : Nat :=
  match maxSeqNum changes with
  | none => 0
  | some mx => (mx - p.highestSentSeqNum).toNat

/-- The best-effort send pass (stateful_writer.rs lines 257-414). -/
def writeMessageToReaderProxyBestEffort (p : RtpsReaderProxy) (writerId : EntityId)
    (changes : List CacheChange) (dataMaxSizeSerialized : Nat) :
    Option (RtpsReaderProxy × List Datagram) :=
  writeBestEffortGo writerId changes dataMaxSizeSerialized (unsentFuel p changes) p

/-- Branch A of the reliable send loop (stateful_writer.rs lines 430-471):
for each next unsent s, either an INFO_DST + GAP + HEARTBEAT(final=false)
datagram when s jumped past highest_sent_seq_num + 1 (unreachable given
next_unsent_change, translated for fidelity) or the per-change routine, then
highest_sent_seq_num := s. -/
def writeReliableUnsentGo (writerId : EntityId) (changes : List CacheChange)
    (seqNumMin seqNumMax : Option SequenceNumber) (dataMaxSizeSerialized : Nat) (now : Int) :
    Nat → RtpsReaderProxy → Option (RtpsReaderProxy × List Datagram)
  | 0, p => some (p, [])
  | fuel + 1, p =>
    match p.nextUnsentChange changes with
    | none => some (p, [])
    | some s =>
      let step : Option (RtpsReaderProxy × List Datagram) :=
        if p.highestSentSeqNum + 1 < s then
          let hb := p.hbMachine.generateNewHeartbeat writerId (seqNumMin.getD 1)
            (seqNumMax.getD 0) now false
          some ({ p with hbMachine := hb.1 },
            [[ Submessage.infoDst p.remoteReaderGuid.pfx,
               Submessage.gap p.remoteReaderGuid.entityId writerId
                 (p.highestSentSeqNum + 1) ((s - 1) + 1) [],
               hb.2 ]])
        else
          match writeChangeMessageReaderProxyReliable p writerId changes seqNumMin
              seqNumMax dataMaxSizeSerialized s now with
          | none => none
          | some (hm, dgs) => some ({ p with hbMachine := hm }, dgs)
      match step with
      | none => none
      | some (p1, dgs) =>
        match writeReliableUnsentGo writerId changes seqNumMin seqNumMax
            dataMaxSizeSerialized now fuel { p1 with highestSentSeqNum := s } with
        | none => none
        | some (p2, rest) => some (p2, dgs ++ rest)

/-- The requested-changes drain of the reliable send loop (stateful_writer.rs
lines 517-538): pop the smallest requested sequence number and run the
per-change routine until the set is empty.  Each pop removes one element, so
the budget requestedChanges.length is the exact iteration count. -/
def writeReliableRequestedGo (writerId : EntityId) (changes : List CacheChange)
    (seqNumMin seqNumMax : Option SequenceNumber) (dataMaxSizeSerialized : Nat) (now : Int) :
    Nat → RtpsReaderProxy → Option (RtpsReaderProxy × List Datagram)
  | 0, p => some (p, [])
  | fuel + 1, p =>
    match p.nextRequestedChange with
    | none => some (p, [])
    | some (s, p1) =>
      match writeChangeMessageReaderProxyReliable p1 writerId changes seqNumMin seqNumMax
          dataMaxSizeSerialized s now with
      | none => none
      | some (hm, dgs) =>
        match writeReliableRequestedGo writerId changes seqNumMin seqNumMax
            dataMaxSizeSerialized now fuel { p1 with hbMachine := hm } with
        | none => none
        | some (p2, rest) => some (p2, dgs ++ rest)

/-- The reliable send pass (write_message_to_reader_proxy_reliable,
stateful_writer.rs lines 417-539): the three-way top of the state machine
(unsent changes / idle final heartbeat unless Volatile / pending heartbeat),
followed by the requested-changes drain. -/
def writeMessageToReaderProxyReliable (p : RtpsReaderProxy) (writerId : EntityId)
    (changes : List CacheChange) (seqNumMin seqNumMax : Option SequenceNumber)
    (dataMaxSizeSerialized : Nat) (heartbeatPeriod : Int) (now : Int) :
    Option (RtpsReaderProxy × List Datagram) :=
  let top : Option (RtpsReaderProxy × List Datagram) :=
    if p.unsentChanges changes then
      writeReliableUnsentGo writerId changes seqNumMin seqNumMax dataMaxSizeSerialized now
        (unsentFuel p changes) p
    else if p.unackedChanges seqNumMax = false then
      if p.hbMachine.isTimeForHeartbeat now heartbeatPeriod ∧ p.durability ≠ .Volatile then
        let hb := p.hbMachine.generateNewHeartbeat writerId (seqNumMin.getD 1)
          (seqNumMax.getD 0) now true
        some ({ p with hbMachine := hb.1 },
          [[ Submessage.infoDst p.remoteReaderGuid.pfx, hb.2 ]])
      else some (p, [])
    else
      if p.hbMachine.isTimeForHeartbeat now heartbeatPeriod then
        let hb := p.hbMachine.generateNewHeartbeat writerId (seqNumMin.getD 1)
          (seqNumMax.getD 0) now false
        some ({ p with hbMachine := hb.1 },
          [[ Submessage.infoDst p.remoteReaderGuid.pfx, hb.2 ]])
      else some (p, [])
  match top with
  | none => none
  | some (p1, dgs1) =>
    match writeReliableRequestedGo writerId changes seqNumMin seqNumMax
        dataMaxSizeSerialized now p1.requestedChanges.length p1 with
    | none => none
    | some (p2, dgs2) => some (p2, dgs1 ++ dgs2)

/-- The stateful writer state (stateful_writer.rs lines 30-36). -/
structure RtpsStatefulWriter where
  guid : Guid
  changes : List CacheChange
  matchedReaders : List RtpsReaderProxy
  heartbeatPeriod : Int
  dataMaxSizeSerialized : Nat
deriving DecidableEq, Repr

/-- is_change_acknowledged (stateful_writer.rs lines 66-72): no reliable
matched reader proxy still has the change unacknowledged. -/
def RtpsStatefulWriter.isChangeAcknowledged (w : RtpsStatefulWriter)
    (sequenceNumber : SequenceNumber) : Bool :=
  ! ((w.matchedReaders.filter (fun rp => decide (rp.reliability = .Reliable))).any
      (fun rp => rp.unackedChanges (some sequenceNumber)))

/-- Modelled from the spec: section 6, the transport-level ReaderProxy
descriptor (transport/writer.rs is not under src/) with the fields
add_matched_reader reads. -/
structure ReaderProxy where
  remoteReaderGuid : Guid
  remoteGroupEntityId : EntityId
  unicastLocatorList : List Nat
  multicastLocatorList : List Nat
  expectsInlineQos : Bool
  reliabilityKind : ReliabilityKind
  durabilityKind : DurabilityKind
deriving DecidableEq, Repr

/-- Modelled from the spec: RtpsReaderProxy::new (rtps/reader_proxy.rs, not
under src/).  Sections 3 and 4.2: a proxy is created on match carrying the
descriptor fields and fresh protocol state: nothing sent, nothing
acknowledged, no requested changes, zeroed duplicate-suppression counters and
an idle heartbeat machine.  The argument order follows the call in
stateful_writer.rs lines 86-96. -/
def RtpsReaderProxy.new (remoteReaderGuid : Guid) (remoteGroupEntityId : EntityId)
    (unicastLocatorList multicastLocatorList : List Nat)
    (expectsInlineQos isActive : Bool) (reliability : ReliabilityKind)
    (firstRelevantSampleSeqNum : SequenceNumber) (durability : DurabilityKind) :
    RtpsReaderProxy :=
  { remoteReaderGuid := remoteReaderGuid
    remoteGroupEntityId := remoteGroupEntityId
    unicastLocatorList := unicastLocatorList
    multicastLocatorList := multicastLocatorList
    expectsInlineQos := expectsInlineQos
    isActive := isActive
    reliability := reliability
    durability := durability
    firstRelevantSampleSeqNum := firstRelevantSampleSeqNum
    highestSentSeqNum := 0
    highestAckedSeqNum := 0
    requestedChanges := []
    lastReceivedAcknackCount := 0
    lastReceivedNackFragCount := 0
    hbMachine := ⟨0, 0⟩ }

/-- The find-and-assign-else-push of add_matched_reader (stateful_writer.rs
lines 97-105): replace the first proxy with the given remote GUID, or append
the new proxy when none matches. -/
def replaceFirstMatched (g : Guid) (nrp : RtpsReaderProxy) :
    List RtpsReaderProxy → List RtpsReaderProxy
  | [] => [nrp]
  | rp :: rest =>
    if rp.remoteReaderGuid = g then nrp :: rest else rp :: replaceFirstMatched g nrp rest

/-- add_matched_reader (stateful_writer.rs lines 74-106): Volatile readers get
first_relevant_sample_seq_num = current max sequence number (0 when the change
set is empty), the other durabilities get 0; the proxy replaces an existing
one with the same remote GUID or is appended. -/
def RtpsStatefulWriter.addMatchedReader (w : RtpsStatefulWriter) (readerProxy : ReaderProxy) :
    RtpsStatefulWriter :=
  let firstRelevantSampleSeqNum : SequenceNumber :=
    match readerProxy.durabilityKind with
    | .Volatile => (maxSeqNum w.changes).getD 0
    | .TransientLocal | .Transient | .Persistent => 0
  let rtpsReaderProxy := RtpsReaderProxy.new readerProxy.remoteReaderGuid
    readerProxy.remoteGroupEntityId readerProxy.unicastLocatorList
    readerProxy.multicastLocatorList readerProxy.expectsInlineQos true
    readerProxy.reliabilityKind firstRelevantSampleSeqNum readerProxy.durabilityKind
  { w with matchedReaders :=
      replaceFirstMatched readerProxy.remoteReaderGuid rtpsReaderProxy w.matchedReaders }

/-- The per-proxy dispatch of write_message (stateful_writer.rs lines
113-142): each matched reader gets its best-effort or reliable send pass, in
list order; the changed proxies are collected back in place. -/
def writeMessageProxiesGo (g : Guid) (changes : List CacheChange)
    (dataMaxSizeSerialized : Nat) (heartbeatPeriod now : Int) :
    List RtpsReaderProxy → Option (List RtpsReaderProxy × List Datagram)
  | [] => some ([], [])
  | rp :: rest =>
    let r := match rp.reliability with
      | .BestEffort =>
        writeMessageToReaderProxyBestEffort rp g.entityId changes dataMaxSizeSerialized
      | .Reliable =>
        writeMessageToReaderProxyReliable rp g.entityId changes (minSeqNum changes)
          (maxSeqNum changes) dataMaxSizeSerialized heartbeatPeriod now
    match r with
    | none => none
    | some (rp1, dgs) =>
      match writeMessageProxiesGo g changes dataMaxSizeSerialized heartbeatPeriod now rest with
      | none => none
      | some (rest1, dgs2) => some (rp1 :: rest1, dgs ++ dgs2)

/-- write_message (stateful_writer.rs lines 113-142). -/
def RtpsStatefulWriter.writeMessage (w : RtpsStatefulWriter) (now : Int) :
    Option (RtpsStatefulWriter × List Datagram) :=
  match writeMessageProxiesGo w.guid w.changes w.dataMaxSizeSerialized w.heartbeatPeriod now
      w.matchedReaders with
  | none => none
  | some (rps, dgs) => some ({ w with matchedReaders := rps }, dgs)

/-- The proxy-state update an accepted ACKNACK performs before the follow-up
send pass (stateful_writer.rs lines 162-165): cumulative ack to base - 1,
union of the selective NACKs, and the new duplicate-suppression count. -/
def acknackUpdate (rp : RtpsReaderProxy) (m : AckNackSubmessage) : RtpsReaderProxy :=
  { (rp.ackedChangesSet (m.readerSnStateBase - 1)).requestedChangesSet m.readerSnStateSet
      with lastReceivedAcknackCount := m.count }

/-- The find-first-matching-proxy part of on_acknack_submessage_received
(stateful_writer.rs lines 152-180): the first proxy whose remote GUID matches
is updated and gets an immediate reliable send pass when it is reliable and
the count is fresh; every other proxy is untouched. -/
def acknackProxiesGo (g : Guid) (changes : List CacheChange) (dataMaxSizeSerialized : Nat)
    (heartbeatPeriod now : Int) (m : AckNackSubmessage) (readerGuid : Guid) :
    List RtpsReaderProxy → Option (List RtpsReaderProxy × List Datagram)
  | [] => some ([], [])
  | rp :: rest =>
    if rp.remoteReaderGuid = readerGuid then
      if rp.reliability = .Reliable ∧ rp.lastReceivedAcknackCount < m.count then
        match writeMessageToReaderProxyReliable (acknackUpdate rp m) g.entityId changes
            (minSeqNum changes) (maxSeqNum changes) dataMaxSizeSerialized heartbeatPeriod
            now with
        | none => none
        | some (rp1, dgs) => some (rp1 :: rest, dgs)
      else some (rp :: rest, [])
    else
      match acknackProxiesGo g changes dataMaxSizeSerialized heartbeatPeriod now m readerGuid
          rest with
      | none => none
      | some (rest1, dgs) => some (rp :: rest1, dgs)

/-- on_acknack_submessage_received (stateful_writer.rs lines 144-182). -/
def RtpsStatefulWriter.onAcknackSubmessageReceived (w : RtpsStatefulWriter)
    (m : AckNackSubmessage) (sourceGuidPfx : GuidPfx) (now : Int) :
    Option (RtpsStatefulWriter × List Datagram) :=
  if w.guid.entityId = m.writerId then
    match acknackProxiesGo w.guid w.changes w.dataMaxSizeSerialized w.heartbeatPeriod now m
        ⟨sourceGuidPfx, m.readerId⟩ w.matchedReaders with
    | none => none
    | some (rps, dgs) => some ({ w with matchedReaders := rps }, dgs)
  else some (w, [])

/-- The proxy-state update an accepted NACK_FRAG performs before the follow-up
send pass (stateful_writer.rs lines 201-203). -/
def nackFragUpdate (rp : RtpsReaderProxy) (m : NackFragSubmessage) : RtpsReaderProxy :=
  { rp.requestedChangesSet [m.writerSn] with lastReceivedNackFragCount := m.count }

/-- The find-first-matching-proxy part of on_nack_frag_submessage_received
(stateful_writer.rs lines 191-218); note that, unlike the ACKNACK handler,
nothing here reads the submessage's writer id. -/
def nackFragProxiesGo (g : Guid) (changes : List CacheChange) (dataMaxSizeSerialized : Nat)
    (heartbeatPeriod now : Int) (m : NackFragSubmessage) (readerGuid : Guid) :
    List RtpsReaderProxy → Option (List RtpsReaderProxy × List Datagram)
  | [] => some ([], [])
  | rp :: rest =>
    if rp.remoteReaderGuid = readerGuid then
      if rp.reliability = .Reliable ∧ rp.lastReceivedNackFragCount < m.count then
        match writeMessageToReaderProxyReliable (nackFragUpdate rp m) g.entityId changes
            (minSeqNum changes) (maxSeqNum changes) dataMaxSizeSerialized heartbeatPeriod
            now with
        | none => none
        | some (rp1, dgs) => some (rp1 :: rest, dgs)
      else some (rp :: rest, [])
    else
      match nackFragProxiesGo g changes dataMaxSizeSerialized heartbeatPeriod now m readerGuid
          rest with
      | none => none
      | some (rest1, dgs) => some (rp :: rest1, dgs)

/-- on_nack_frag_submessage_received (stateful_writer.rs lines 184-219): no
writer-id gate, in contrast with the ACKNACK handler. -/
def RtpsStatefulWriter.onNackFragSubmessageReceived (w : RtpsStatefulWriter)
    (m : NackFragSubmessage) (sourceGuidPfx : GuidPfx) (now : Int) :
    Option (RtpsStatefulWriter × List Datagram) :=
  match nackFragProxiesGo w.guid w.changes w.dataMaxSizeSerialized w.heartbeatPeriod now m
      ⟨sourceGuidPfx, m.readerId⟩ w.matchedReaders with
  | none => none
  | some (rps, dgs) => some ({ w with matchedReaders := rps }, dgs)

/-- Length (qos_policy.rs lines 20-27). -/
inductive Length where
  | Unlimited
  | Limited (n : Nat)
deriving DecidableEq, Repr

/-- The PartialOrd implementation for Length (qos_policy.rs lines 49-62);
the nested u32 comparison Some(value.cmp(other)) is the Nat compare. -/
def Length.partialCmp : Length → Length → Option Ordering
  | .Unlimited, .Unlimited => some .eq
  | .Unlimited, .Limited _ => some .gt
  | .Limited _, .Unlimited => some .lt
  | .Limited v, .Limited o => some (compare v o)

/-- A small Alive change with a two-byte payload, used by the concrete
scenarios (spec section 8). -/
def exampleChange (n : SequenceNumber) : CacheChange :=
  ⟨.Alive, ⟨1, 2⟩, n, some 10, [1, 2]⟩

/-- The reliable reader proxy of scenario 3 of spec section 8: everything up
to sequence number 5 sent and acknowledged. -/
def exampleProxy : RtpsReaderProxy :=
  { remoteReaderGuid := ⟨7, 8⟩, remoteGroupEntityId := 0, unicastLocatorList := [],
    multicastLocatorList := [], expectsInlineQos := false, isActive := true,
    reliability := .Reliable, durability := .TransientLocal,
    firstRelevantSampleSeqNum := 0, highestSentSeqNum := 5, highestAckedSeqNum := 5,
    requestedChanges := [], lastReceivedAcknackCount := 0,
    lastReceivedNackFragCount := 0, hbMachine := ⟨0, 0⟩ }

/-- The writer of scenario 3 of spec section 8: changes 1..5, one reliable
matched reader. -/
def exampleWriter : RtpsStatefulWriter :=
  { guid := ⟨1, 2⟩,
    changes := [exampleChange 1, exampleChange 2, exampleChange 3, exampleChange 4,
      exampleChange 5],
    matchedReaders := [exampleProxy], heartbeatPeriod := 200,
    dataMaxSizeSerialized := 1024 }

/-- The ACKNACK of scenario 3 of spec section 8: base 4, set {4}, count 7. -/
def exampleAcknack : AckNackSubmessage :=
  { finalFlag := true, readerId := 8, writerId := 2, readerSnStateBase := 4,
    readerSnStateSet := [4], count := 7 }

/-- A late-joined (Volatile-matched) reliable proxy whose
first_relevant_sample_seq_num is 10. -/
def lateJoinProxy : RtpsReaderProxy :=
  { exampleProxy with
    firstRelevantSampleSeqNum := 10
    highestSentSeqNum := 10
    highestAckedSeqNum := 10 }

/-- An ACKNACK whose selective NACK set {5} lies below lateJoinProxy's
first_relevant_sample_seq_num. -/
def belowRelevanceAcknack : AckNackSubmessage :=
  { finalFlag := true, readerId := 8, writerId := 2, readerSnStateBase := 4,
    readerSnStateSet := [5], count := 7 }

/-- A NACK_FRAG for sequence number 5, below lateJoinProxy's
first_relevant_sample_seq_num. -/
def belowRelevanceNackFrag : NackFragSubmessage :=
  { readerId := 8, writerId := 2, writerSn := 5, fragmentNumberStateBase := 1,
    fragmentNumberStateSet := [], count := 7 }

/-- The best-effort proxy of scenario 2 of spec section 8 with nothing sent. -/
def bestEffortProxy : RtpsReaderProxy :=
  { exampleProxy with reliability := .BestEffort, highestSentSeqNum := 0 }

/-- An idle reliable proxy: change 1 sent and acknowledged, heartbeat last
emitted long ago. -/
def idleProxy : RtpsReaderProxy :=
  { exampleProxy with
    highestSentSeqNum := 1
    highestAckedSeqNum := 1
    hbMachine := ⟨-300, 0⟩ }

/-- An idle Volatile reliable proxy carrying a leftover requested change. -/
def volatileRequestedProxy : RtpsReaderProxy :=
  { exampleProxy with
    durability := .Volatile
    highestSentSeqNum := 1
    highestAckedSeqNum := 1
    requestedChanges := [2] }

/-- A NotAliveDisposed change with a five-byte payload, fragmented by a
two-byte budget into three fragments. -/
def fragChange : CacheChange := ⟨.NotAliveDisposed, ⟨1, 2⟩, 1, none, [0, 1, 2, 3, 4]⟩

/-- A change whose kind hits the unimplemented fragmentation branch. -/
def unimplementedKindChange : CacheChange := ⟨.AliveFiltered, ⟨1, 2⟩, 1, none, [0, 1, 2]⟩

/-- A Volatile reader-proxy descriptor for the add_matched_reader scenario. -/
def volatileDesc : ReaderProxy :=
  { remoteReaderGuid := ⟨9, 9⟩, remoteGroupEntityId := 0, unicastLocatorList := [],
    multicastLocatorList := [], expectsInlineQos := false,
    reliabilityKind := .Reliable, durabilityKind := .Volatile }

/-- A TransientLocal descriptor sharing exampleProxy's remote GUID, for the
replace-in-place case of add_matched_reader. -/
def transientLocalDesc : ReaderProxy :=
  { remoteReaderGuid := ⟨7, 8⟩, remoteGroupEntityId := 0, unicastLocatorList := [],
    multicastLocatorList := [], expectsInlineQos := false,
    reliabilityKind := .Reliable, durabilityKind := .TransientLocal }

/-- A NACK_FRAG for sequence number 4 from exampleProxy's reader. -/
def exampleNackFrag : NackFragSubmessage :=
  { readerId := 8, writerId := 2, writerSn := 4, fragmentNumberStateBase := 1,
    fragmentNumberStateSet := [], count := 7 }

theorem one_lt_divCeil (a b : Nat) (hb : 0 < b) (h : b < a) : 1 < divCeil a b := by
  have h2 : 2 ≤ (a + b - 1) / b := by
    rw [Nat.le_div_iff_mul_le hb]
    omega
  rw [divCeil]
  omega

theorem divCeil_le_one (a b : Nat) (hb : 0 < b) (h : a ≤ b) : divCeil a b ≤ 1 := by
  rw [divCeil]
  rw [Nat.div_le_iff_le_mul_add_pred hb]
  omega

theorem mem_requestedFold_of_mem (fr : Int) (xs : List Int) (acc : List Int) (a : Int)
    (ha : a ∈ acc) :
    a ∈ xs.foldl (fun acc sn => if fr < sn ∧ sn ∉ acc then acc ++ [sn] else acc) acc := by
  induction xs generalizing acc with
  | nil => exact ha
  | cons x rest ih =>
    simp only [List.foldl_cons]
    apply ih
    split
    · exact List.mem_append_left _ ha
    · exact ha

theorem mem_requestedFold (fr : Int) (xs : List Int) (acc : List Int) (s : Int)
    (hs : s ∈ xs) (hfr : fr < s) :
    s ∈ xs.foldl (fun acc sn => if fr < sn ∧ sn ∉ acc then acc ++ [sn] else acc) acc := by
  induction xs generalizing acc with
  | nil => cases hs
  | cons x rest ih =>
    simp only [List.foldl_cons]
    rcases List.mem_cons.mp hs with hx | hx
    · subst hx
      by_cases hmem : s ∈ acc
      · apply mem_requestedFold_of_mem
        split
        · exact List.mem_append_left _ hmem
        · exact hmem
      · apply mem_requestedFold_of_mem
        rw [if_pos ⟨hfr, hmem⟩]
        exact List.mem_append_right _ (List.mem_singleton.mpr rfl)
    · exact ih _ hx

/-- C3: is_change_acknowledged n is true exactly when every reliable matched
reader proxy has highest_acked_seq_num at least n; best-effort proxies never
make it false, and with only best-effort proxies it is true for every n. -/
theorem is_change_acknowledged_iff_reliable_acked (w : RtpsStatefulWriter)
    (n : SequenceNumber) :
    (w.isChangeAcknowledged n = true ↔
      ∀ rp ∈ w.matchedReaders, rp.reliability = .Reliable → n ≤ rp.highestAckedSeqNum) ∧
    ((∀ rp ∈ w.matchedReaders, rp.reliability = .BestEffort) →
      w.isChangeAcknowledged n = true) := by
  constructor
  · simp [RtpsStatefulWriter.isChangeAcknowledged, RtpsReaderProxy.unackedChanges,
      List.any_eq_true, List.mem_filter, not_lt]
  · intro h
    simp [RtpsStatefulWriter.isChangeAcknowledged, RtpsReaderProxy.unackedChanges,
      List.any_eq_true, List.mem_filter, not_lt]
    intro rp hm hrel
    have := h rp hm
    rw [this] at hrel
    cases hrel

theorem is_change_acknowledged_witness :
    exampleWriter.isChangeAcknowledged 3 = true ∧
    exampleWriter.isChangeAcknowledged 7 = false :=
  ⟨(is_change_acknowledged_iff_reliable_acked exampleWriter 3).1.mpr (by decide),
   by decide⟩

/-- C8: the Length partial order has Unlimited strictly above every Limited,
compares Limited values exactly as their payloads compare, and judges two
lengths equal exactly when they are the same value (so Unlimited equals only
Unlimited). -/
theorem length_ordering_spec :
    (∀ n : Nat, Length.partialCmp .Unlimited (.Limited n) = some .gt ∧
      Length.partialCmp (.Limited n) .Unlimited = some .lt) ∧
    (∀ a b : Nat, Length.partialCmp (.Limited a) (.Limited b) = some (compare a b)) ∧
    (∀ x y : Length, Length.partialCmp x y = some .eq ↔ x = y) := by
  refine ⟨fun n => ⟨rfl, rfl⟩, fun a b => rfl, fun x y => ?_⟩
  cases x <;> cases y <;> simp [Length.partialCmp, Nat.compare_eq_eq]

theorem length_ordering_witness :
    Length.partialCmp .Unlimited (.Limited 7) = some .gt ∧
    Length.partialCmp (.Limited 2) (.Limited 5) = some (compare 2 5) ∧
    (Length.partialCmp .Unlimited .Unlimited = some .eq ↔
      (Length.Unlimited = Length.Unlimited)) :=
  ⟨(length_ordering_spec.1 7).1, length_ordering_spec.2.1 2 5,
   length_ordering_spec.2.2 .Unlimited .Unlimited⟩

/-- C9: for the three spec-sanctioned kinds the fragmentation key_flag never
hits the unimplemented catch-all and is true exactly for NotAliveDisposed and
NotAliveUnregistered; every other kind makes the key_flag computation, and
hence the fragment burst, hit the panicking branch. -/
theorem key_flag_partial_on_kinds :
    (∀ k : ChangeKind,
      (k = .Alive ∨ k = .NotAliveDisposed ∨ k = .NotAliveUnregistered) →
      keyFlag k = some (decide (k = .NotAliveDisposed ∨ k = .NotAliveUnregistered))) ∧
    (∀ k : ChangeKind,
      ¬ (k = .Alive ∨ k = .NotAliveDisposed ∨ k = .NotAliveUnregistered) →
      keyFlag k = none) ∧
    (∀ (dstPfx : GuidPfx) (readerId writerId : EntityId) (cc : CacheChange) (dmss : Nat),
      keyFlag cc.kind = none → 1 ≤ divCeil cc.dataValue.length dmss →
      fragDatagrams dstPfx readerId writerId cc dmss = none) := by
  refine ⟨fun k hk => ?_, fun k hk => ?_, fun dstPfx readerId writerId cc dmss hkf hnf => ?_⟩
  · rcases hk with h | h | h <;> subst h <;> rfl
  · cases k <;> simp_all [keyFlag]
  · simp only [fragDatagrams, hkf]
    rw [if_neg]
    omega

theorem key_flag_witness :
    keyFlag .NotAliveDisposed =
      some (decide ((ChangeKind.NotAliveDisposed = .NotAliveDisposed) ∨
        (ChangeKind.NotAliveDisposed = .NotAliveUnregistered))) ∧
    keyFlag .AliveFiltered = none ∧
    fragDatagrams 7 8 2 unimplementedKindChange 1 = none :=
  ⟨key_flag_partial_on_kinds.1 .NotAliveDisposed (Or.inr (Or.inl rfl)),
   key_flag_partial_on_kinds.2.1 .AliveFiltered (by decide),
   key_flag_partial_on_kinds.2.2 7 8 2 unimplementedKindChange 1 (by decide) (by decide)⟩

theorem replaceFirstMatched_of_no_match (g : Guid) (nrp : RtpsReaderProxy)
    (l : List RtpsReaderProxy) (h : ∀ q ∈ l, q.remoteReaderGuid ≠ g) :
    replaceFirstMatched g nrp l = l ++ [nrp] := by
  induction l with
  | nil => rfl
  | cons rp rest ih =>
    rw [replaceFirstMatched, if_neg (h rp (List.mem_cons_self rp rest))]
    simp only [List.cons_append, List.cons.injEq, true_and]
    exact ih (fun q hq => h q (List.mem_cons_of_mem rp hq))

theorem replaceFirstMatched_split (g : Guid) (nrp : RtpsReaderProxy)
    (pre : List RtpsReaderProxy) (old : RtpsReaderProxy) (post : List RtpsReaderProxy)
    (hpre : ∀ q ∈ pre, q.remoteReaderGuid ≠ g) (hold : old.remoteReaderGuid = g) :
    replaceFirstMatched g nrp (pre ++ old :: post) = pre ++ nrp :: post := by
  induction pre with
  | nil => simp [replaceFirstMatched, hold]
  | cons q rest ih =>
    simp only [List.cons_append]
    rw [replaceFirstMatched, if_neg (hpre q (List.mem_cons_self q rest))]
    rw [ih (fun q' hq' => hpre q' (List.mem_cons_of_mem q hq'))]

/-- C7: add_matched_reader gives the new proxy first_relevant_sample_seq_num
equal to the writer's current maximum sequence number (0 when the change set
is empty) for Volatile readers and 0 for TransientLocal, Transient and
Persistent readers; a proxy with the same remote reader GUID is replaced in
place, and otherwise the new proxy is appended. -/
theorem add_matched_reader_durability_and_replacement (w : RtpsStatefulWriter)
    (d : ReaderProxy) (fr : SequenceNumber) (nrp : RtpsReaderProxy)
    (hfr : fr = match d.durabilityKind with
      | .Volatile => (maxSeqNum w.changes).getD 0
      | .TransientLocal | .Transient | .Persistent => 0)
    (hnrp : nrp = RtpsReaderProxy.new d.remoteReaderGuid d.remoteGroupEntityId
      d.unicastLocatorList d.multicastLocatorList d.expectsInlineQos true
      d.reliabilityKind fr d.durabilityKind) :
    nrp.firstRelevantSampleSeqNum = fr ∧
    (∀ pre old post, w.matchedReaders = pre ++ old :: post →
      (∀ q ∈ pre, q.remoteReaderGuid ≠ d.remoteReaderGuid) →
      old.remoteReaderGuid = d.remoteReaderGuid →
      (w.addMatchedReader d).matchedReaders = pre ++ nrp :: post) ∧
    ((∀ q ∈ w.matchedReaders, q.remoteReaderGuid ≠ d.remoteReaderGuid) →
      (w.addMatchedReader d).matchedReaders = w.matchedReaders ++ [nrp]) := by
  subst hfr hnrp
  refine ⟨rfl, ?_, ?_⟩
  · intro pre old post hsplit hpre hold
    simp only [RtpsStatefulWriter.addMatchedReader, hsplit]
    exact replaceFirstMatched_split _ _ pre old post hpre hold
  · intro h
    simp only [RtpsStatefulWriter.addMatchedReader]
    exact replaceFirstMatched_of_no_match _ _ _ h

theorem add_matched_reader_witness :
    ((RtpsReaderProxy.new volatileDesc.remoteReaderGuid volatileDesc.remoteGroupEntityId
        volatileDesc.unicastLocatorList volatileDesc.multicastLocatorList
        volatileDesc.expectsInlineQos true volatileDesc.reliabilityKind 5
        volatileDesc.durabilityKind).firstRelevantSampleSeqNum = 5 ∧
      (exampleWriter.addMatchedReader volatileDesc).matchedReaders =
        exampleWriter.matchedReaders ++
          [RtpsReaderProxy.new volatileDesc.remoteReaderGuid
            volatileDesc.remoteGroupEntityId volatileDesc.unicastLocatorList
            volatileDesc.multicastLocatorList volatileDesc.expectsInlineQos true
            volatileDesc.reliabilityKind 5 volatileDesc.durabilityKind]) ∧
    (exampleWriter.addMatchedReader transientLocalDesc).matchedReaders =
      [] ++ (RtpsReaderProxy.new transientLocalDesc.remoteReaderGuid
        transientLocalDesc.remoteGroupEntityId transientLocalDesc.unicastLocatorList
        transientLocalDesc.multicastLocatorList transientLocalDesc.expectsInlineQos true
        transientLocalDesc.reliabilityKind 0 transientLocalDesc.durabilityKind) :: [] := by
  have hV := add_matched_reader_durability_and_replacement exampleWriter volatileDesc 5 _
    (by decide) rfl
  have hT := add_matched_reader_durability_and_replacement exampleWriter transientLocalDesc
    0 _ (by decide) rfl
  refine ⟨⟨hV.1, hV.2.2 (by decide)⟩, hT.2.1 [] exampleProxy [] rfl (by decide) (by decide)⟩

theorem acknackProxiesGo_no_match (g : Guid) (changes : List CacheChange) (dmss : Nat)
    (period now : Int) (m : AckNackSubmessage) (rg : Guid) (l : List RtpsReaderProxy)
    (h : ∀ rp ∈ l, rp.remoteReaderGuid ≠ rg) :
    acknackProxiesGo g changes dmss period now m rg l = some (l, []) := by
  induction l with
  | nil => rfl
  | cons rp rest ih =>
    rw [acknackProxiesGo, if_neg (h rp (List.mem_cons_self rp rest))]
    rw [ih (fun q hq => h q (List.mem_cons_of_mem rp hq))]

theorem acknackProxiesGo_drop (g : Guid) (changes : List CacheChange) (dmss : Nat)
    (period now : Int) (m : AckNackSubmessage) (rg : Guid)
    (pre : List RtpsReaderProxy) (rp : RtpsReaderProxy) (post : List RtpsReaderProxy)
    (hpre : ∀ q ∈ pre, q.remoteReaderGuid ≠ rg) (hrp : rp.remoteReaderGuid = rg)
    (hgate : ¬ (rp.reliability = .Reliable ∧ rp.lastReceivedAcknackCount < m.count)) :
    acknackProxiesGo g changes dmss period now m rg (pre ++ rp :: post) =
      some (pre ++ rp :: post, []) := by
  induction pre with
  | nil =>
    simp only [List.nil_append]
    rw [acknackProxiesGo, if_pos hrp, if_neg hgate]
  | cons q rest ih =>
    simp only [List.cons_append]
    rw [acknackProxiesGo, if_neg (hpre q (List.mem_cons_self q rest))]
    rw [ih (fun q' hq' => hpre q' (List.mem_cons_of_mem q hq'))]

theorem acknackProxiesGo_hit (g : Guid) (changes : List CacheChange) (dmss : Nat)
    (period now : Int) (m : AckNackSubmessage) (rg : Guid)
    (pre : List RtpsReaderProxy) (rp : RtpsReaderProxy) (post : List RtpsReaderProxy)
    (hpre : ∀ q ∈ pre, q.remoteReaderGuid ≠ rg) (hrp : rp.remoteReaderGuid = rg)
    (hrel : rp.reliability = .Reliable) (hcnt : rp.lastReceivedAcknackCount < m.count) :
    acknackProxiesGo g changes dmss period now m rg (pre ++ rp :: post) =
      (writeMessageToReaderProxyReliable (acknackUpdate rp m) g.entityId changes
        (minSeqNum changes) (maxSeqNum changes) dmss period now).map
        (fun r => (pre ++ r.1 :: post, r.2)) := by
  induction pre with
  | nil =>
    simp only [List.nil_append]
    rw [acknackProxiesGo, if_pos hrp, if_pos ⟨hrel, hcnt⟩]
    cases h : writeMessageToReaderProxyReliable (acknackUpdate rp m) g.entityId changes
        (minSeqNum changes) (maxSeqNum changes) dmss period now with
    | none => rfl
    | some r => rfl
  | cons q rest ih =>
    simp only [List.cons_append]
    rw [acknackProxiesGo, if_neg (hpre q (List.mem_cons_self q rest))]
    rw [ih (fun q' hq' => hpre q' (List.mem_cons_of_mem q hq'))]
    cases h : writeMessageToReaderProxyReliable (acknackUpdate rp m) g.entityId changes
        (minSeqNum changes) (maxSeqNum changes) dmss period now with
    | none => rfl
    | some r => rfl

/-- C2: an inbound ACKNACK whose writer id is not this writer's entity id, or
that matches no proxy, or whose first matching proxy is best-effort, or whose
count is not strictly above the proxy's last received count, leaves the writer
unchanged and sends nothing. -/
theorem acknack_dropped_is_noop (w : RtpsStatefulWriter) (m : AckNackSubmessage)
    (srcPfx : GuidPfx) (now : Int)
    (h : w.guid.entityId ≠ m.writerId ∨
      (∀ rp ∈ w.matchedReaders, rp.remoteReaderGuid ≠ (⟨srcPfx, m.readerId⟩ : Guid)) ∨
      (∃ pre rp post, w.matchedReaders = pre ++ rp :: post ∧
        (∀ q ∈ pre, q.remoteReaderGuid ≠ (⟨srcPfx, m.readerId⟩ : Guid)) ∧
        rp.remoteReaderGuid = (⟨srcPfx, m.readerId⟩ : Guid) ∧
        (rp.reliability = .BestEffort ∨ m.count ≤ rp.lastReceivedAcknackCount))) :
    w.onAcknackSubmessageReceived m srcPfx now = some (w, []) := by
  by_cases hw : w.guid.entityId = m.writerId
  · rcases h with h | h | ⟨pre, rp, post, hsplit, hpre, hrp, hgate⟩
    · exact absurd hw h
    · rw [RtpsStatefulWriter.onAcknackSubmessageReceived, if_pos hw]
      rw [acknackProxiesGo_no_match _ _ _ _ _ _ _ _ h]
    · rw [RtpsStatefulWriter.onAcknackSubmessageReceived, if_pos hw, hsplit]
      rw [acknackProxiesGo_drop _ _ _ _ _ _ _ _ _ _ hpre hrp]
      · rw [← hsplit]
      · rintro ⟨hrel, hcnt⟩
        rcases hgate with hbe | hle
        · rw [hbe] at hrel; cases hrel
        · omega
  · rw [RtpsStatefulWriter.onAcknackSubmessageReceived, if_neg hw]

theorem acknack_dropped_witness :
    exampleWriter.onAcknackSubmessageReceived { exampleAcknack with writerId := 3 } 7 0 =
      some (exampleWriter, []) ∧
    exampleWriter.onAcknackSubmessageReceived { exampleAcknack with readerId := 99 } 7 0 =
      some (exampleWriter, []) ∧
    exampleWriter.onAcknackSubmessageReceived { exampleAcknack with count := 0 } 7 0 =
      some (exampleWriter, []) :=
  ⟨acknack_dropped_is_noop _ _ _ _ (Or.inl (by decide)),
   acknack_dropped_is_noop _ _ _ _ (Or.inr (Or.inl (by decide))),
   acknack_dropped_is_noop _ _ _ _ (Or.inr (Or.inr
     ⟨[], exampleProxy, [], rfl, by decide, rfl, Or.inr (by decide)⟩))⟩

theorem acknackUpdate_fields (rp : RtpsReaderProxy) (m : AckNackSubmessage) :
    (acknackUpdate rp m).highestAckedSeqNum = m.readerSnStateBase - 1 ∧
    (acknackUpdate rp m).lastReceivedAcknackCount = m.count ∧
    (∀ s ∈ m.readerSnStateSet, rp.firstRelevantSampleSeqNum < s →
      s ∈ (acknackUpdate rp m).requestedChanges) ∧
    (∀ s ∈ rp.requestedChanges, s ∈ (acknackUpdate rp m).requestedChanges) := by
  refine ⟨rfl, rfl, fun s hs hfr => ?_, fun s hs => ?_⟩
  · simp only [acknackUpdate, RtpsReaderProxy.requestedChangesSet,
      RtpsReaderProxy.ackedChangesSet]
    exact mem_requestedFold _ _ _ _ hs hfr
  · simp only [acknackUpdate, RtpsReaderProxy.requestedChangesSet,
      RtpsReaderProxy.ackedChangesSet]
    exact mem_requestedFold_of_mem _ _ _ _ hs

/-- C1: an inbound ACKNACK whose writer id matches, whose (source prefix,
reader id) locates a reliable proxy, and whose count is strictly fresh makes
the handler set highest_acked_seq_num to base - 1, union the relevant part of
the NACK set (the sequence numbers above first_relevant_sample_seq_num) into
requested_changes while keeping the existing requests, record the new count,
and immediately run the reliable send pass for exactly that proxy. -/
theorem acknack_accepted_updates_and_sends (w : RtpsStatefulWriter)
    (m : AckNackSubmessage) (srcPfx : GuidPfx) (now : Int)
    (pre : List RtpsReaderProxy) (rp : RtpsReaderProxy) (post : List RtpsReaderProxy)
    (hw : w.guid.entityId = m.writerId)
    (hsplit : w.matchedReaders = pre ++ rp :: post)
    (hpre : ∀ q ∈ pre, q.remoteReaderGuid ≠ (⟨srcPfx, m.readerId⟩ : Guid))
    (hrp : rp.remoteReaderGuid = (⟨srcPfx, m.readerId⟩ : Guid))
    (hrel : rp.reliability = .Reliable)
    (hcnt : rp.lastReceivedAcknackCount < m.count) :
    w.onAcknackSubmessageReceived m srcPfx now =
      (writeMessageToReaderProxyReliable (acknackUpdate rp m) w.guid.entityId w.changes
        (minSeqNum w.changes) (maxSeqNum w.changes) w.dataMaxSizeSerialized
        w.heartbeatPeriod now).map
        (fun r => ({ w with matchedReaders := pre ++ r.1 :: post }, r.2)) ∧
    (acknackUpdate rp m).highestAckedSeqNum = m.readerSnStateBase - 1 ∧
    (acknackUpdate rp m).lastReceivedAcknackCount = m.count ∧
    (∀ s ∈ m.readerSnStateSet, rp.firstRelevantSampleSeqNum < s →
      s ∈ (acknackUpdate rp m).requestedChanges) ∧
    (∀ s ∈ rp.requestedChanges, s ∈ (acknackUpdate rp m).requestedChanges) := by
  refine ⟨?_, acknackUpdate_fields rp m⟩
  rw [RtpsStatefulWriter.onAcknackSubmessageReceived, if_pos hw, hsplit]
  rw [acknackProxiesGo_hit _ _ _ _ _ _ _ _ _ _ hpre hrp hrel hcnt]
  cases h : writeMessageToReaderProxyReliable (acknackUpdate rp m) w.guid.entityId w.changes
      (minSeqNum w.changes) (maxSeqNum w.changes) w.dataMaxSizeSerialized
      w.heartbeatPeriod now with
  | none => rfl
  | some r => rfl

theorem acknack_accepted_scenario_witness :
    exampleWriter.onAcknackSubmessageReceived exampleAcknack 7 0 =
      some ({ exampleWriter with matchedReaders :=
          [{ exampleProxy with
              highestAckedSeqNum := 3
              lastReceivedAcknackCount := 7
              hbMachine := ⟨0, 1⟩ }] },
        [[ Submessage.infoDst 7, Submessage.infoTs false 10, Submessage.dataSub 8 2 4 [1, 2],
           Submessage.heartbeat 2 1 5 1 false ]]) ∧
    (acknackUpdate exampleProxy exampleAcknack).highestAckedSeqNum = 3 ∧
    (acknackUpdate exampleProxy exampleAcknack).requestedChanges = [4] := by
  have h := acknack_accepted_updates_and_sends exampleWriter exampleAcknack 7 0 []
    exampleProxy [] rfl rfl (by decide) rfl rfl (by decide)
  exact ⟨h.1.trans (by decide), h.2.1.trans (by decide), by decide⟩

theorem acknack_union_filtered_counterexample :
    exampleWriter.guid.entityId = belowRelevanceAcknack.writerId ∧
    lateJoinProxy.remoteReaderGuid = ⟨7, belowRelevanceAcknack.readerId⟩ ∧
    lateJoinProxy.reliability = .Reliable ∧
    lateJoinProxy.lastReceivedAcknackCount < belowRelevanceAcknack.count ∧
    belowRelevanceAcknack.readerSnStateSet = [5] ∧
    lateJoinProxy.requestedChanges = [] ∧
    (acknackUpdate lateJoinProxy belowRelevanceAcknack).requestedChanges = [] := by
  decide

theorem nackFragProxiesGo_ignores_writerId (g : Guid) (changes : List CacheChange)
    (dmss : Nat) (period now : Int) (m : NackFragSubmessage) (rg : Guid) (x : EntityId)
    (l : List RtpsReaderProxy) :
    nackFragProxiesGo g changes dmss period now { m with writerId := x } rg l =
    nackFragProxiesGo g changes dmss period now m rg l := by
  induction l with
  | nil => rfl
  | cons rp rest ih =>
    simp only [nackFragProxiesGo, ih]
    rfl

theorem nackFragProxiesGo_hit (g : Guid) (changes : List CacheChange) (dmss : Nat)
    (period now : Int) (m : NackFragSubmessage) (rg : Guid)
    (pre : List RtpsReaderProxy) (rp : RtpsReaderProxy) (post : List RtpsReaderProxy)
    (hpre : ∀ q ∈ pre, q.remoteReaderGuid ≠ rg) (hrp : rp.remoteReaderGuid = rg)
    (hrel : rp.reliability = .Reliable) (hcnt : rp.lastReceivedNackFragCount < m.count) :
    nackFragProxiesGo g changes dmss period now m rg (pre ++ rp :: post) =
      (writeMessageToReaderProxyReliable (nackFragUpdate rp m) g.entityId changes
        (minSeqNum changes) (maxSeqNum changes) dmss period now).map
        (fun r => (pre ++ r.1 :: post, r.2)) := by
  induction pre with
  | nil =>
    simp only [List.nil_append]
    rw [nackFragProxiesGo, if_pos hrp, if_pos ⟨hrel, hcnt⟩]
    cases h : writeMessageToReaderProxyReliable (nackFragUpdate rp m) g.entityId changes
        (minSeqNum changes) (maxSeqNum changes) dmss period now with
    | none => rfl
    | some r => rfl
  | cons q rest ih =>
    simp only [List.cons_append]
    rw [nackFragProxiesGo, if_neg (hpre q (List.mem_cons_self q rest))]
    rw [ih (fun q' hq' => hpre q' (List.mem_cons_of_mem q hq'))]
    cases h : writeMessageToReaderProxyReliable (nackFragUpdate rp m) g.entityId changes
        (minSeqNum changes) (maxSeqNum changes) dmss period now with
    | none => rfl
    | some r => rfl

/-- C10: the NACK_FRAG handler never inspects the submessage's writer id (its
outcome is identical for every writer-id value); for a fresh count on a
matching reliable proxy it records the count, adds the NACKed writer_sn to
requested_changes when that exceeds first_relevant_sample_seq_num, and runs
the reliable send pass — whereas the ACKNACK handler drops any submessage
whose writer id is not this writer's entity id. -/
theorem nack_frag_ignores_writer_id :
    (∀ (w : RtpsStatefulWriter) (m : NackFragSubmessage) (srcPfx : GuidPfx) (now : Int)
      (x : EntityId),
      w.onNackFragSubmessageReceived { m with writerId := x } srcPfx now =
      w.onNackFragSubmessageReceived m srcPfx now) ∧
    (∀ (w : RtpsStatefulWriter) (m : NackFragSubmessage) (srcPfx : GuidPfx) (now : Int)
      (pre : List RtpsReaderProxy) (rp : RtpsReaderProxy) (post : List RtpsReaderProxy),
      w.matchedReaders = pre ++ rp :: post →
      (∀ q ∈ pre, q.remoteReaderGuid ≠ (⟨srcPfx, m.readerId⟩ : Guid)) →
      rp.remoteReaderGuid = (⟨srcPfx, m.readerId⟩ : Guid) →
      rp.reliability = .Reliable →
      rp.lastReceivedNackFragCount < m.count →
      w.onNackFragSubmessageReceived m srcPfx now =
        (writeMessageToReaderProxyReliable (nackFragUpdate rp m) w.guid.entityId w.changes
          (minSeqNum w.changes) (maxSeqNum w.changes) w.dataMaxSizeSerialized
          w.heartbeatPeriod now).map
          (fun r => ({ w with matchedReaders := pre ++ r.1 :: post }, r.2)) ∧
      (nackFragUpdate rp m).lastReceivedNackFragCount = m.count ∧
      (rp.firstRelevantSampleSeqNum < m.writerSn →
        m.writerSn ∈ (nackFragUpdate rp m).requestedChanges)) ∧
    (∀ (w : RtpsStatefulWriter) (m : AckNackSubmessage) (srcPfx : GuidPfx) (now : Int),
      w.guid.entityId ≠ m.writerId →
      w.onAcknackSubmessageReceived m srcPfx now = some (w, [])) := by
  refine ⟨fun w m srcPfx now x => ?_, fun w m srcPfx now pre rp post hsplit hpre hrp hrel
    hcnt => ⟨?_, rfl, fun hfr => ?_⟩, fun w m srcPfx now hw => ?_⟩
  · rw [RtpsStatefulWriter.onNackFragSubmessageReceived,
      RtpsStatefulWriter.onNackFragSubmessageReceived,
      nackFragProxiesGo_ignores_writerId]
  · rw [RtpsStatefulWriter.onNackFragSubmessageReceived, hsplit]
    rw [nackFragProxiesGo_hit _ _ _ _ _ _ _ _ _ _ hpre hrp hrel hcnt]
    cases h : writeMessageToReaderProxyReliable (nackFragUpdate rp m) w.guid.entityId
        w.changes (minSeqNum w.changes) (maxSeqNum w.changes) w.dataMaxSizeSerialized
        w.heartbeatPeriod now with
    | none => rfl
    | some r => rfl
  · simp only [nackFragUpdate, RtpsReaderProxy.requestedChangesSet]
    exact mem_requestedFold _ _ _ _ (List.mem_singleton.mpr rfl) hfr
  · rw [RtpsStatefulWriter.onAcknackSubmessageReceived, if_neg hw]

theorem nack_frag_witness :
    (exampleWriter.onNackFragSubmessageReceived { exampleNackFrag with writerId := 999 }
        7 0 =
      exampleWriter.onNackFragSubmessageReceived exampleNackFrag 7 0) ∧
    exampleWriter.onNackFragSubmessageReceived exampleNackFrag 7 0 =
      some ({ exampleWriter with matchedReaders :=
          [{ exampleProxy with
              lastReceivedNackFragCount := 7
              hbMachine := ⟨0, 1⟩ }] },
        [[ Submessage.infoDst 7, Submessage.infoTs false 10, Submessage.dataSub 8 2 4 [1, 2],
           Submessage.heartbeat 2 1 5 1 false ]]) ∧
    (nackFragUpdate exampleProxy exampleNackFrag).requestedChanges = [4] := by
  have ha := nack_frag_ignores_writer_id.1 exampleWriter exampleNackFrag 7 0 999
  have hb := nack_frag_ignores_writer_id.2.1 exampleWriter exampleNackFrag 7 0 []
    exampleProxy [] rfl (by decide) rfl rfl (by decide)
  exact ⟨ha, hb.1.trans (by decide), by decide⟩

theorem nack_frag_filtered_counterexample :
    lateJoinProxy.remoteReaderGuid = ⟨7, belowRelevanceNackFrag.readerId⟩ ∧
    lateJoinProxy.reliability = .Reliable ∧
    lateJoinProxy.lastReceivedNackFragCount < belowRelevanceNackFrag.count ∧
    belowRelevanceNackFrag.writerSn = 5 ∧
    lateJoinProxy.requestedChanges = [] ∧
    (nackFragUpdate lateJoinProxy belowRelevanceNackFrag).requestedChanges = [] := by
  decide

/-- C6: in a reliable send pass for a proxy with no unsent changes, no
unacknowledged changes and no pending requested changes, an
INFO_DST-preceded HEARTBEAT with final=true is emitted exactly when
is_time_for_heartbeat holds and the durability is not Volatile; a Volatile
proxy in this state emits nothing. -/
theorem idle_reliable_pass_heartbeat (p : RtpsReaderProxy) (writerId : EntityId)
    (changes : List CacheChange) (seqNumMin seqNumMax : Option SequenceNumber)
    (dmss : Nat) (period now : Int)
    (hunsent : p.unsentChanges changes = false)
    (hunacked : p.unackedChanges seqNumMax = false)
    (hreq : p.requestedChanges = []) :
    (writeMessageToReaderProxyReliable p writerId changes seqNumMin seqNumMax dmss period
        now =
      if p.hbMachine.isTimeForHeartbeat now period ∧ p.durability ≠ .Volatile then
        some ({ p with hbMachine := ⟨now, p.hbMachine.count + 1⟩ },
          [[ Submessage.infoDst p.remoteReaderGuid.pfx,
             Submessage.heartbeat writerId (seqNumMin.getD 1) (seqNumMax.getD 0)
               (p.hbMachine.count + 1) true ]])
      else some (p, [])) ∧
    (p.durability = .Volatile →
      writeMessageToReaderProxyReliable p writerId changes seqNumMin seqNumMax dmss period
        now = some (p, [])) := by
  have hmain : writeMessageToReaderProxyReliable p writerId changes seqNumMin seqNumMax
      dmss period now =
      if p.hbMachine.isTimeForHeartbeat now period ∧ p.durability ≠ .Volatile then
        some ({ p with hbMachine := ⟨now, p.hbMachine.count + 1⟩ },
          [[ Submessage.infoDst p.remoteReaderGuid.pfx,
             Submessage.heartbeat writerId (seqNumMin.getD 1) (seqNumMax.getD 0)
               (p.hbMachine.count + 1) true ]])
      else some (p, []) := by
    rw [writeMessageToReaderProxyReliable]
    simp only [hunsent, hunacked, Bool.false_eq_true, if_false, if_true]
    by_cases hc : p.hbMachine.isTimeForHeartbeat now period ∧ p.durability ≠ .Volatile
    · rw [if_pos hc, if_pos hc]
      simp only [HeartbeatMachine.generateNewHeartbeat, hreq]
      rfl
    · rw [if_neg hc, if_neg hc]
      simp only [hreq]
      rfl
  refine ⟨hmain, fun hvol => ?_⟩
  rw [hmain, if_neg]
  rintro ⟨-, hne⟩
  exact hne hvol

theorem idle_reliable_pass_witness :
    writeMessageToReaderProxyReliable idleProxy 2 [exampleChange 1]
        (minSeqNum [exampleChange 1]) (maxSeqNum [exampleChange 1]) 1024 200 0 =
      some ({ idleProxy with hbMachine := ⟨0, 1⟩ },
        [[ Submessage.infoDst 7, Submessage.heartbeat 2 1 1 1 true ]]) ∧
    writeMessageToReaderProxyReliable { idleProxy with durability := .Volatile } 2
        [exampleChange 1] (minSeqNum [exampleChange 1]) (maxSeqNum [exampleChange 1])
        1024 200 0 =
      some ({ idleProxy with durability := .Volatile }, []) := by
  have h1 := idle_reliable_pass_heartbeat idleProxy 2 [exampleChange 1]
    (minSeqNum [exampleChange 1]) (maxSeqNum [exampleChange 1]) 1024 200 0
    (by decide) (by decide) rfl
  have h2 := idle_reliable_pass_heartbeat { idleProxy with durability := .Volatile } 2
    [exampleChange 1] (minSeqNum [exampleChange 1]) (maxSeqNum [exampleChange 1])
    1024 200 0 (by decide) (by decide) rfl
  exact ⟨h1.1.trans (by decide), h2.2 rfl⟩

theorem idle_volatile_requested_counterexample :
    volatileRequestedProxy.durability = .Volatile ∧
    volatileRequestedProxy.unsentChanges [exampleChange 1] = false ∧
    volatileRequestedProxy.unackedChanges (maxSeqNum [exampleChange 1]) = false ∧
    (writeMessageToReaderProxyReliable volatileRequestedProxy 2 [exampleChange 1]
        (minSeqNum [exampleChange 1]) (maxSeqNum [exampleChange 1]) 1024 200 0).map
      Prod.snd =
      some [[ Submessage.infoDst 7, Submessage.gap ENTITYID_UNKNOWN 2 2 3 [] ]] := by
  decide

/-- C4: when a change's payload is longer than data_max_size_serialized, the
reliable per-change send emits exactly ceil(len / D) DATA_FRAG datagrams, one
per fragment, in ascending fragment_starting_num order 1..ceil(len/D), the
i-th (1-based) carrying payload bytes [(i-1)*D, min(i*D, len)) with
fragments_in_submessage = 1, and none of these datagrams contains a
HEARTBEAT submessage; the proxy's heartbeat machine is untouched. -/
theorem fragmented_reliable_send_datagrams (p : RtpsReaderProxy) (writerId : EntityId)
    (changes : List CacheChange) (seqNumMin seqNumMax : Option SequenceNumber)
    (dmss : Nat) (s : SequenceNumber) (now : Int) (cc : CacheChange)
    (hfind : changes.find? (fun c => decide (c.sequenceNumber = s)) = some cc)
    (hrel : p.firstRelevantSampleSeqNum < s)
    (hkind : cc.kind = .Alive ∨ cc.kind = .NotAliveDisposed ∨
      cc.kind = .NotAliveUnregistered)
    (hd : 0 < dmss) (hlen : dmss < cc.dataValue.length) :
    ∃ dgs,
      writeChangeMessageReaderProxyReliable p writerId changes seqNumMin seqNumMax dmss s
        now = some (p.hbMachine, dgs) ∧
      dgs.length = divCeil cc.dataValue.length dmss ∧
      (∀ i (h : i < dgs.length), dgs[i] =
        [ Submessage.infoDst p.remoteReaderGuid.pfx,
          infoTsOf cc,
          Submessage.dataFrag true false
            (decide (cc.kind = .NotAliveDisposed ∨ cc.kind = .NotAliveUnregistered))
            p.remoteReaderGuid.entityId writerId cc.sequenceNumber
            ((i + 1) % 2 ^ 32) 1 (dmss % 2 ^ 16) (cc.dataValue.length % 2 ^ 32)
            ((cc.dataValue.drop (i * dmss)).take
              (min ((i + 1) * dmss) cc.dataValue.length - i * dmss)) ]) ∧
      (∀ dg ∈ dgs, ∀ sm ∈ dg, sm.isHeartbeat = false) := by
  have hkf : keyFlag cc.kind =
      some (decide (cc.kind = .NotAliveDisposed ∨ cc.kind = .NotAliveUnregistered)) := by
    rcases hkind with h | h | h <;> rw [h] <;> rfl
  have hnf : 1 < divCeil cc.dataValue.length dmss := one_lt_divCeil _ _ hd hlen
  have hnf0 : ¬ divCeil cc.dataValue.length dmss = 0 := by omega
  simp only [writeChangeMessageReaderProxyReliable, hfind, fragDatagrams, hkf, hrel, hnf,
    hnf0, if_true, if_false, ite_true, ite_false]
  refine ⟨_, rfl, ?_, ?_, ?_⟩
  · simp
  · intro i h
    simp only [List.getElem_map, List.getElem_range]
  · intro dg hdg sm hsm
    simp only [List.mem_map, List.mem_range] at hdg
    obtain ⟨j, hj, rfl⟩ := hdg
    simp only [List.mem_cons, List.not_mem_nil, or_false] at hsm
    rcases hsm with rfl | rfl | rfl
    · rfl
    · rw [infoTsOf]
      cases cc.sourceTimestamp <;> rfl
    · rfl

theorem fragmented_reliable_send_witness :
    (∃ dgs,
      writeChangeMessageReaderProxyReliable exampleProxy 2 [fragChange]
        (minSeqNum [fragChange]) (maxSeqNum [fragChange]) 2 1 0 =
        some (exampleProxy.hbMachine, dgs) ∧
      dgs.length = divCeil fragChange.dataValue.length 2 ∧
      (∀ i (h : i < dgs.length), dgs[i] =
        [ Submessage.infoDst exampleProxy.remoteReaderGuid.pfx,
          infoTsOf fragChange,
          Submessage.dataFrag true false
            (decide (fragChange.kind = .NotAliveDisposed ∨
              fragChange.kind = .NotAliveUnregistered))
            exampleProxy.remoteReaderGuid.entityId 2 fragChange.sequenceNumber
            ((i + 1) % 2 ^ 32) 1 (2 % 2 ^ 16) (fragChange.dataValue.length % 2 ^ 32)
            ((fragChange.dataValue.drop (i * 2)).take
              (min ((i + 1) * 2) fragChange.dataValue.length - i * 2)) ]) ∧
      (∀ dg ∈ dgs, ∀ sm ∈ dg, sm.isHeartbeat = false)) ∧
    (writeChangeMessageReaderProxyReliable exampleProxy 2 [fragChange]
        (minSeqNum [fragChange]) (maxSeqNum [fragChange]) 2 1 0).map Prod.snd =
      some [ [ Submessage.infoDst 7, Submessage.infoTs true TIME_INVALID,
               Submessage.dataFrag true false true 8 2 1 1 1 2 5 [0, 1] ],
             [ Submessage.infoDst 7, Submessage.infoTs true TIME_INVALID,
               Submessage.dataFrag true false true 8 2 1 2 1 2 5 [2, 3] ],
             [ Submessage.infoDst 7, Submessage.infoTs true TIME_INVALID,
               Submessage.dataFrag true false true 8 2 1 3 1 2 5 [4] ] ] :=
  ⟨fragmented_reliable_send_datagrams exampleProxy 2 [fragChange]
      (minSeqNum [fragChange]) (maxSeqNum [fragChange]) 2 1 0 fragChange rfl (by decide)
      (Or.inr (Or.inl rfl)) (by decide) (by decide),
   by decide⟩

theorem writeBestEffortGo_data_step (writerId : EntityId) (changes : List CacheChange)
    (dmss : Nat) (fuel : Nat) (p : RtpsReaderProxy) (s : SequenceNumber) (cc : CacheChange)
    (hnext : p.nextUnsentChange changes = some s)
    (hng : ¬ (p.highestSentSeqNum + 1 < s))
    (hfind : changes.find? (fun c => decide (c.sequenceNumber = s)) = some cc)
    (hsmall : ¬ 1 < divCeil cc.dataValue.length dmss) :
    writeBestEffortGo writerId changes dmss (fuel + 1) p =
      (writeBestEffortGo writerId changes dmss fuel
        { p with highestSentSeqNum := s }).map
        (fun r => (r.1,
          [ Submessage.infoDst p.remoteReaderGuid.pfx, infoTsOf cc,
            cc.asDataSubmessage p.remoteReaderGuid.entityId writerId ] :: r.2)) := by
  rw [writeBestEffortGo]
  simp only [hnext, hfind, hng, hsmall, if_false, ite_false]
  cases writeBestEffortGo writerId changes dmss fuel { p with highestSentSeqNum := s } with
  | none => rfl
  | some r => rfl

theorem writeBestEffortGo_gap_step (writerId : EntityId) (changes : List CacheChange)
    (dmss : Nat) (fuel : Nat) (p : RtpsReaderProxy) (s : SequenceNumber)
    (hnext : p.nextUnsentChange changes = some s)
    (hng : ¬ (p.highestSentSeqNum + 1 < s))
    (hfind : changes.find? (fun c => decide (c.sequenceNumber = s)) = none) :
    writeBestEffortGo writerId changes dmss (fuel + 1) p =
      (writeBestEffortGo writerId changes dmss fuel
        { p with highestSentSeqNum := s }).map
        (fun r => (r.1,
          [ Submessage.gap ENTITYID_UNKNOWN writerId s (s + 1) [] ] :: r.2)) := by
  rw [writeBestEffortGo]
  simp only [hnext, hfind, hng, if_false, ite_false]
  cases writeBestEffortGo writerId changes dmss fuel { p with highestSentSeqNum := s } with
  | none => rfl
  | some r => rfl

/-- C5: a best-effort proxy with nothing sent, against a writer holding
exactly changes 1 and 3 (2 removed) whose payloads fit one fragment, gets in
one write_message pass exactly DATA(1), then a GAP covering [2,2] (encoded as
base 2 with set base 3), then DATA(3), in that ascending order, and ends with
highest_sent_seq_num = 3. -/
theorem best_effort_pass_data_gap_data (g : Guid) (rp : RtpsReaderProxy)
    (cc1 cc3 : CacheChange) (dmss : Nat) (period now : Int)
    (hrel : rp.reliability = .BestEffort)
    (hhs : rp.highestSentSeqNum = 0)
    (h1 : cc1.sequenceNumber = 1) (h3 : cc3.sequenceNumber = 3)
    (hd : 0 < dmss)
    (hl1 : cc1.dataValue.length ≤ dmss) (hl3 : cc3.dataValue.length ≤ dmss) :
    RtpsStatefulWriter.writeMessage ⟨g, [cc1, cc3], [rp], period, dmss⟩ now =
      some (⟨g, [cc1, cc3], [{ rp with highestSentSeqNum := 3 }], period, dmss⟩,
        [ [ Submessage.infoDst rp.remoteReaderGuid.pfx, infoTsOf cc1,
            cc1.asDataSubmessage rp.remoteReaderGuid.entityId g.entityId ],
          [ Submessage.gap ENTITYID_UNKNOWN g.entityId 2 3 [] ],
          [ Submessage.infoDst rp.remoteReaderGuid.pfx, infoTsOf cc3,
            cc3.asDataSubmessage rp.remoteReaderGuid.entityId g.entityId ] ]) := by
  have hmax : maxSeqNum [cc1, cc3] = some 3 := by
    simp [maxSeqNum, h1, h3, List.max?]
  have hn1 : ¬ 1 < divCeil cc1.dataValue.length dmss := by
    have := divCeil_le_one _ _ hd hl1
    omega
  have hn3 : ¬ 1 < divCeil cc3.dataValue.length dmss := by
    have := divCeil_le_one _ _ hd hl3
    omega
  have hfuel : unsentFuel rp [cc1, cc3] = 3 := by
    simp [unsentFuel, hmax, hhs]
  have hnext1 : rp.nextUnsentChange [cc1, cc3] = some 1 := by
    simp [RtpsReaderProxy.nextUnsentChange, hmax, hhs]
  have hnext2 : ({ rp with highestSentSeqNum := 1 } :
      RtpsReaderProxy).nextUnsentChange [cc1, cc3] = some 2 := by
    simp [RtpsReaderProxy.nextUnsentChange, hmax]
  have hnext3 : ({ rp with highestSentSeqNum := 2 } :
      RtpsReaderProxy).nextUnsentChange [cc1, cc3] = some 3 := by
    simp [RtpsReaderProxy.nextUnsentChange, hmax]
  have hfind1 : List.find? (fun c => decide (c.sequenceNumber = 1)) [cc1, cc3] =
      some cc1 := by
    rw [List.find?_cons_of_pos]
    simp [h1]
  have hfind2 : List.find? (fun c => decide (c.sequenceNumber = 2)) [cc1, cc3] = none := by
    simp [List.find?_eq_none, h1, h3]
  have hfind3 : List.find? (fun c => decide (c.sequenceNumber = 3)) [cc1, cc3] =
      some cc3 := by
    rw [List.find?_cons_of_neg, List.find?_cons_of_pos]
    · simp [h3]
    · simp [h1]
  rw [RtpsStatefulWriter.writeMessage]
  rw [writeMessageProxiesGo]
  simp only [hrel]
  rw [writeMessageToReaderProxyBestEffort, hfuel]
  rw [show (3 : Nat) = 2 + 1 from rfl]
  rw [writeBestEffortGo_data_step _ _ _ _ _ _ _ hnext1 (by rw [hhs]; norm_num) hfind1 hn1]
  rw [writeBestEffortGo_gap_step _ _ _ _ _ _ hnext2 (by norm_num) hfind2]
  rw [writeBestEffortGo_data_step _ _ _ _ _ _ _ hnext3 (by norm_num) hfind3 hn3]
  rw [writeBestEffortGo]
  simp only [Option.map_some']
  rw [writeMessageProxiesGo]
  norm_num
  exact hrel

theorem best_effort_pass_witness :
    RtpsStatefulWriter.writeMessage
        ⟨⟨1, 2⟩, [exampleChange 1, exampleChange 3], [bestEffortProxy], 200, 1024⟩ 0 =
      some (⟨⟨1, 2⟩, [exampleChange 1, exampleChange 3],
          [{ bestEffortProxy with highestSentSeqNum := 3 }], 200, 1024⟩,
        [ [ Submessage.infoDst 7, Submessage.infoTs false 10, Submessage.dataSub 8 2 1 [1, 2] ],
          [ Submessage.gap ENTITYID_UNKNOWN 2 2 3 [] ],
          [ Submessage.infoDst 7, Submessage.infoTs false 10,
            Submessage.dataSub 8 2 3 [1, 2] ] ]) := by
  have h := best_effort_pass_data_gap_data ⟨1, 2⟩ bestEffortProxy (exampleChange 1)
    (exampleChange 3) 1024 200 0 rfl rfl rfl rfl (by decide) (by decide) (by decide)
  exact h.trans (by decide)
